import Mathlib

set_option linter.unusedVariables false

/-!
Verification of the mapping-driven ETL orchestration engine
(python-etl-sql-postgres).

The Python modules under `src/` are shallowly embedded: dynamically typed
Python values become the inductive `PyVal`; operations that can raise
(`x[i]`, `x[k]`, iteration, tuple unpacking, `int(...)`) return
`Except PyErr _`; each embedded function catches exceptions at its
boundary exactly where the source's `try`/`except` blocks live.  External
collaborators (file system, the two database engines, configuration) are
parameters of an `Env` record, matching the spec's capability boundary.
-/

/-- A dynamically typed Python value (the subset the ETL code manipulates). -/
inductive PyVal where
  | none
  | bool (b : Bool)
  | int (n : Int)
  | str (s : String)
  | list (xs : List PyVal)
  | tuple (xs : List PyVal)
  | dict (kvs : List (String × PyVal))
deriving Repr

/-- Python exceptions raised by the embedded operations. -/
inductive PyErr where
  | typeError
  | indexError
  | keyError (k : String)
  | valueError
  | nameError
  | fileNotFoundError
deriving Repr, DecidableEq

/-- Python truthiness (`bool(v)`). -/
def pyTruthy : PyVal → Bool
  | .none => false
  | .bool b => b
  | .int n => n != 0
  | .str s => s ≠ ""
  | .list xs => !xs.isEmpty
  | .tuple xs => !xs.isEmpty
  | .dict kvs => !kvs.isEmpty

/-- Python structural equality (`==`), including `True == 1`. -/
def pyEq : PyVal → PyVal → Bool
  | .none, .none => true
  | .bool a, .bool b => a == b
  | .bool a, .int b => (if a then (1 : Int) else 0) == b
  | .int a, .bool b => a == (if b then (1 : Int) else 0)
  | .int a, .int b => a == b
  | .str a, .str b => a == b
  | .list a, .list b => pyEqList a b
  | .tuple a, .tuple b => pyEqList a b
  | .dict a, .dict b => pyEqKV a b
  | _, _ => false
where
  pyEqList : List PyVal → List PyVal → Bool
    | [], [] => true
    | a :: as, b :: bs => pyEq a b && pyEqList as bs
    | _, _ => false
  pyEqKV : List (String × PyVal) → List (String × PyVal) → Bool
    | [], [] => true
    | (k, v) :: as, (k', v') :: bs => k == k' && pyEq v v' && pyEqKV as bs
    | _, _ => false

/-- Subscripting with a non-negative integer literal (`v[i]`). -/
def pyIndex : PyVal → Nat → Except PyErr PyVal
  | .list xs, i => if h : i < xs.length then .ok (xs.get ⟨i, h⟩) else .error .indexError
  | .tuple xs, i => if h : i < xs.length then .ok (xs.get ⟨i, h⟩) else .error .indexError
  | _, _ => .error .typeError

/-- Subscripting with a string key (`v[k]`); `TypeError` on non-dicts. -/
def pyGetKey : PyVal → String → Except PyErr PyVal
  | .dict kvs, k =>
      match kvs.find? (fun p => p.1 == k) with
      | some p => .ok p.2
      | Option.none => .error (.keyError k)
  | _, _ => .error .typeError

/-- Iteration (`for x in v`); `TypeError` on non-iterables. -/
def pyIter : PyVal → Except PyErr (List PyVal)
  | .list xs => .ok xs
  | .tuple xs => .ok xs
  | .str s => .ok (s.data.map (fun c => .str (String.mk [c])))
  | .dict kvs => .ok (kvs.map (fun kv => .str kv.1))
  | _ => .error .typeError

/-- Two-target tuple unpacking (`a, b = v`). -/
def pyUnpack2 (v : PyVal) : Except PyErr (PyVal × PyVal) :=
  match pyIter v with
  | .error e => .error e
  | .ok [a, b] => .ok (a, b)
  | .ok _ => .error .valueError

/-- The `int(...)` coercion. -/
def pyInt : PyVal → Except PyErr Int
  | .int n => .ok n
  | .bool b => .ok (if b then 1 else 0)
  | .str s =>
      match s.toInt? with
      | some n => .ok n
      | Option.none => .error .valueError
  | _ => .error .typeError

/-- The `str(...)` coercion as used by f-string interpolation. -/
def pyStr : PyVal → String
  | .str s => s
  | .int n => toString n
  | .bool b => if b then "True" else "False"
  | .none => "None"
  | .list _ => "[...]"
  | .tuple _ => "(...)"
  | .dict _ => "dict"

/-! ## String helpers used by the embedded modules -/

/-- `text.replace("\n", "").replace("\t", "")` from
`utils/file_handler.py::read_query_from_file`. -/
def stripNlTab (s : String) : String :=
  String.mk (s.data.filter (fun c => c ≠ '\n' ∧ c ≠ '\t'))

/-- Whether `needle` occurs at the head of `hay` (character lists). -/
def listStartsWith : List Char → List Char → Bool
  | [], _ => true
  | _ :: _, [] => false
  | a :: as, b :: bs => a == b && listStartsWith as bs

/-- Whether `needle` occurs anywhere inside `hay` (character lists). -/
def listContains (needle : List Char) : List Char → Bool
  | [] => needle.isEmpty
  | c :: cs => listStartsWith needle (c :: cs) || listContains needle cs

/-- Python's `needle in hay` on strings. -/
def strContains (hay needle : String) : Bool :=
  listContains needle.data hay.data

/-! ## `string.Template` substitution (Python standard library)

`Template(query).substitute(**bindings)` performs strict placeholder
substitution: `$name` and `$` + brace-delimited `name` are replaced by the
binding for `name`, `$$` is the escaped dollar sign, a placeholder without
a binding raises `KeyError`, and a `$` followed by neither an identifier
nor a brace nor `$` raises `ValueError`.  `tmplSub` is fuel-indexed; the
fuel is the text length, which `tmplSub_fuel_sufficient`-style reasoning
never exhausts because each step consumes at least one character. -/

/-- Start of a Template identifier: ASCII letter or underscore. -/
def identStart (c : Char) : Bool := c.isAlpha || c == '_'

/-- Continuation of a Template identifier. -/
def identChar (c : Char) : Bool := c.isAlphanum || c == '_'

/-- Longest identifier at the head of the character list, plus the rest. -/
def takeIdent : List Char → List Char × List Char
  | [] => ([], [])
  | c :: cs =>
      if identChar c then
        let p := takeIdent cs
        (c :: p.1, p.2)
      else ([], c :: cs)

/-- Look up a binding for a placeholder name. -/
def lookupBinding (bs : List (String × String)) (k : String) : Option String :=
  (bs.find? (fun p => p.1 == k)).map (fun p => p.2)

/-- Outcome of a strict substitution: the substituted text, the name of an
unbound placeholder (`KeyError`), or an invalid `$` occurrence
(`ValueError`). -/
inductive TmplResult where
  | ok (out : List Char)
  | unbound (name : String)
  | invalid
deriving Repr, DecidableEq

/-- One pass of strict `Template.substitute` over a character list. -/
def tmplSub (bs : List (String × String)) : Nat → List Char → TmplResult
  | _, [] => .ok []
  | 0, _ :: _ => .invalid
  | fuel + 1, c :: cs =>
      if c == '$' then
        match cs with
        | [] => .invalid
        | d :: rest =>
            if d == '$' then
              -- "$$" escape
              match tmplSub bs fuel rest with
              | .ok out => .ok ('$' :: out)
              | e => e
            else if d == Char.ofNat 123 then
              -- "$" + brace-delimited name
              match (takeIdent rest).2 with
              | e :: rest2 =>
                  if e == Char.ofNat 125 then
                    if (takeIdent rest).1.isEmpty then .invalid
                    else
                      match lookupBinding bs (String.mk (takeIdent rest).1) with
                      | some v =>
                          match tmplSub bs fuel rest2 with
                          | .ok out => .ok (v.data ++ out)
                          | e2 => e2
                      | Option.none => .unbound (String.mk (takeIdent rest).1)
                  else .invalid
              | [] => .invalid
            else if identStart d then
              -- "$name" placeholder
              match lookupBinding bs (String.mk (takeIdent (d :: rest)).1) with
              | some v =>
                  match tmplSub bs fuel (takeIdent (d :: rest)).2 with
                  | .ok out => .ok (v.data ++ out)
                  | e2 => e2
              | Option.none => .unbound (String.mk (takeIdent (d :: rest)).1)
            else .invalid
      else
        match tmplSub bs fuel cs with
        | .ok out => .ok (c :: out)
        | e => e

/-- `Template(text).substitute(**bs)`. -/
def templateSubstitute (bs : List (String × String)) (text : String) : TmplResult :=
  tmplSub bs text.data.length text.data

/-- The placeholder names occurring in a text, in order (same scan as
`tmplSub`). -/
def tmplNames : Nat → List Char → List String
  | _, [] => []
  | 0, _ :: _ => []
  | fuel + 1, c :: cs =>
      if c == '$' then
        match cs with
        | [] => []
        | d :: rest =>
            if d == '$' then tmplNames fuel rest
            else if d == Char.ofNat 123 then
              match (takeIdent rest).2 with
              | e :: rest2 =>
                  if e == Char.ofNat 125 then
                    if (takeIdent rest).1.isEmpty then []
                    else String.mk (takeIdent rest).1 :: tmplNames fuel rest2
                  else []
              | [] => []
            else if identStart d then
              String.mk (takeIdent (d :: rest)).1 ::
                tmplNames fuel (takeIdent (d :: rest)).2
            else []
      else tmplNames fuel cs

/-- The placeholder names of a text. -/
def templateNames (text : String) : List String :=
  tmplNames text.data.length text.data

/-! ## The environment: external collaborators as capabilities

Per the spec, connectivity, the file system, and configuration are
external.  `jsonFS` is the parsed content of a JSON file (`None` for a
missing or undecodable file, which `load_json_file` treats alike), `sqlFS`
the raw text of a SQL template file, `pgEngine` the destination engine's
verdict on a statement, `pgExecQ` the verdict of
`db.postgresql.execute_pg_query` on a (query value, values) pair, and
`sqlExec` the source engine's rows for a query value. -/
structure Env where
  sqlPath : String
  dbRolePassword : String
  jsonFS : String → Option PyVal
  sqlFS : String → Option String
  pgEngine : String → Bool
  pgExecQ : PyVal → PyVal → Bool
  sqlExec : PyVal → PyVal

/-- `SQL_PATH\destination\<name>` as built by the load/build modules. -/
def destPath (env : Env) (name : String) : String :=
  env.sqlPath ++ "\\destination\\" ++ name

/-- `SQL_PATH\source\<name>` as built by the extract module. -/
def srcPath (env : Env) (name : String) : String :=
  env.sqlPath ++ "\\source\\" ++ name

/-! ## `utils/file_handler.py` -/

/-- `load_json_file(file)`: parses the JSON file and returns the tuple
`(True, data)`; a missing/undecodable file or falsy content makes the
function fall through its `except` handlers and return `None`. -/
def load_json_file (env : Env) (file : String) : PyVal :=
  match env.jsonFS file with
  | Option.none => .none
  | some data => if pyTruthy data then .tuple [.bool true, data] else .none

/-- `read_json_file(name, file)`: unpacks `load_json_file`'s result (a
`TypeError` when it returned `None` is caught, yielding `None`), then
re-derives the success flag via `validate_list` (truthiness). -/
def read_json_file (env : Env) (file : String) : PyVal :=
  match pyUnpack2 (load_json_file env file) with
  | .error _ => .none
  | .ok (_, queries) => .tuple [.bool (pyTruthy queries), queries]

/-- `read_query_from_file(path)`: `None` for a missing file; otherwise the
tuple `(success, text)` where the text has newlines and tabs removed and
`success` is its non-emptiness. -/
def read_query_from_file (env : Env) (path : String) : PyVal :=
  match env.sqlFS path with
  | Option.none => .none
  | some content =>
      .tuple [.bool (stripNlTab content ≠ ""), .str (stripNlTab content)]

/-- Body of the loop in `get_query_list_from_file`: builds the
`(int(query["table_id"]), query[name])` tuples. -/
def gqlfEntries (name : String) : List PyVal → Except PyErr (List PyVal)
  | [] => .ok []
  | query :: rest =>
      match pyGetKey query "table_id" with
      | .error e => .error e
      | .ok tid =>
          match pyInt tid with
          | .error e => .error e
          | .ok n =>
              match pyGetKey query name with
              | .error e => .error e
              | .ok qn =>
                  match gqlfEntries name rest with
                  | .error e => .error e
                  | .ok tl => .ok (.tuple [.int n, qn] :: tl)

/-- `get_query_list_from_file(name, queries)`: iterates `queries`,
collects `(table_id, file)` tuples, and validates the collected list.  On
an empty input list the failure log line references the loop variable
`query`, which is unbound, so a `NameError` is raised and caught; every
raised exception makes the function return `None`. -/
def get_query_list_from_file (name : String) (queries : PyVal) : PyVal :=
  match pyIter queries with
  | .error _ => .none
  | .ok items =>
      match gqlfEntries name items with
      | .error _ => .none
      | .ok ql =>
          if ql.isEmpty then .none
          else .tuple [.bool true, .list ql]

/-! ## `db/postgresql_queries.py` -/

/-- `pg_query(conn, database, query)` for the no-values path: executes the
statement, then (oddly, after execution) substitutes `$password` in the
query for audit logging — a failure of either step is caught and the
function returns `None`; on success it returns `True`. -/
def pg_query (env : Env) (query : String) : PyVal :=
  if env.pgEngine query then
    if strContains query "$password" then
      match templateSubstitute [("password", env.dbRolePassword)] query with
      | .ok _ => .bool true
      | _ => .none
    else .bool true
  else .none

/-- The substitution pipeline of `pg_query_from_file` (lines 82–90): a
guarded `$database` substitution binding only `database`, then a guarded
`$password` substitution binding only `password`; an unbound or invalid
placeholder raises (`KeyError`/`ValueError`). -/
def pgSubstitution (env : Env) (database : String) (query : String) :
    TmplResult :=
  let r1 :=
    if strContains query "$database" then
      templateSubstitute [("database", database)] query
    else .ok query.data
  match r1 with
  | .ok q1 =>
      if strContains (String.mk q1) "$password" then
        templateSubstitute [("password", env.dbRolePassword)] (String.mk q1)
      else .ok q1
  | e => e

/-- `pg_query_from_file(path, database, use_default)`: reads the template,
substitutes, and executes; any raised exception (missing file → `None`
unpack, unbound placeholder, …) is caught and the function returns
`None`. -/
def pg_query_from_file (env : Env) (path database : String) : PyVal :=
  match pyUnpack2 (read_query_from_file env path) with
  | .error _ => .none
  | .ok (_, q) =>
      match pgSubstitution env database (pyStr q) with
      | .ok out => pg_query env (String.mk out)
      | _ => .none

/-! ## `build/build_destination_database.py::create_pg_tables` -/

/-- Whether a mapping record can be carried through one iteration of the
`create_pg_tables` loop without an exception: its
`destination_query_create` key exists and the referenced SQL file exists
and is non-empty after newline/tab removal. -/
def createReadable (env : Env) (table : PyVal) : Bool :=
  match pyGetKey table "destination_query_create" with
  | .ok item =>
      match env.sqlFS (destPath env (pyStr item)) with
      | some c => stripNlTab c ≠ ""
      | Option.none => false
  | .error _ => false

/-- The CREATE statement text a mapping record resolves to (empty string
when unreadable). -/
def createQueryText (env : Env) (table : PyVal) : String :=
  match pyGetKey table "destination_query_create" with
  | .ok item =>
      match env.sqlFS (destPath env (pyStr item)) with
      | some c => stripNlTab c
      | Option.none => ""
  | .error _ => ""

/-- The loop of `create_pg_tables`: threads the `success` variable (each
iteration overwrites it with that table's `pg_query` outcome), records
every statement handed to the engine, and stops only when an exception is
raised (missing/empty SQL file → `FileNotFoundError`); an engine failure
is merely logged and iteration continues. -/
def create_loop (env : Env) : List PyVal → PyVal → List String →
    (PyVal × List String) × Option PyErr
  | [], success, trace => ((success, trace), Option.none)
  | table :: rest, _, trace =>
      match pyGetKey table "destination_query_create" with
      | .error e => ((.none, trace), some e)
      | .ok item =>
          match pyUnpack2 (read_query_from_file env (destPath env (pyStr item))) with
          | .error e => ((.none, trace), some e)
          | .ok (s, q) =>
              if pyTruthy s then
                let res := pg_query env (pyStr q)
                create_loop env rest res (trace ++ [pyStr q])
              else ((.none, trace), some .fileNotFoundError)

/-- `create_pg_tables(database, file)` together with the ghost trace of
statements handed to the engine.  The loop is guarded by the truthiness of
`queries[1]` — the *second mapping record* — and a raised exception is
caught, making the function return `None` with whatever was executed so
far. -/
def create_pg_tables (env : Env) (database file : String) : PyVal × List String :=
  match pyUnpack2 (read_json_file env file) with
  | .error _ => (.none, [])
  | .ok (s, queries) =>
      match pyIndex queries 1 with
      | .error _ => (.none, [])
      | .ok q1 =>
          if pyTruthy q1 then
            match pyIter queries with
            | .error _ => (.none, [])
            | .ok tables =>
                match create_loop env tables s [] with
                | ((res, trace), Option.none) => (res, trace)
                | ((_, trace), some _) => (.none, trace)
          else (s, [])

/-! ## `load/insert_source_data.py::insert_pg_tables` -/

/-- Result of a load: the `success` boolean the function returns and the
ghost trace of inserts actually handed to the engine (destination file
path and bound values). -/
structure LoadResult where
  success : Bool
  executed : List (String × PyVal)
deriving Repr

/-- The list comprehension `[t for t in data if t[0] == table[0]]`. -/
def filterVals (table : PyVal) : List PyVal → Except PyErr (List PyVal)
  | [] => .ok []
  | t :: rest =>
      match pyIndex t 0 with
      | .error e => .error e
      | .ok x =>
          match pyIndex table 0 with
          | .error e => .error e
          | .ok y =>
              match filterVals table rest with
              | .error e => .error e
              | .ok r => .ok (if pyEq x y then t :: r else r)

/-- The loop of `insert_pg_tables`: filters the source data by table id,
reads the per-table INSERT file (a falsy read result raises
`FileNotFoundError`), executes `execute_pg_query(conn, database, query,
values[0][1])` — note `values[0]` raises `IndexError` when no extraction
entry matched — and sets `success = True` after each executed call
(`execute_pg_query` catches engine errors internally and never raises). -/
def insert_loop (env : Env) (data : PyVal) : List PyVal → LoadResult →
    LoadResult × Option PyErr
  | [], st => (st, Option.none)
  | table :: rest, st =>
      match pyIter data with
      | .error e => (st, some e)
      | .ok ts =>
          match filterVals table ts with
          | .error e => (st, some e)
          | .ok values =>
              match pyIndex table 1 with
              | .error e => (st, some e)
              | .ok t1 =>
                  let file := destPath env (pyStr t1)
                  let query := read_query_from_file env file
                  if pyTruthy query then
                    match pyIndex (PyVal.list values) 0 with
                    | .error e => (st, some e)
                    | .ok v0 =>
                        match pyIndex v0 1 with
                        | .error e => (st, some e)
                        | .ok vv =>
                            let _ok := env.pgExecQ query vv
                            insert_loop env data rest
                              ⟨true, st.executed ++ [(file, vv)]⟩
                  else (st, some .fileNotFoundError)

/-- `insert_pg_tables(database, file, data)` with its ghost trace.  The
function loads the mapping JSON, then passes the whole `(flag, records)`
tuple `queries` — not the record list `queries[1]` — to
`get_query_list_from_file`; every raised exception is caught and the
current `success` value is returned. -/
def insert_pg_tables (env : Env) (database file : String) (data : PyVal) : LoadResult :=
  let st0 : LoadResult := ⟨false, []⟩
  let queries := load_json_file env file
  match pyIndex queries 0 with
  | .error _ => st0
  | .ok q0 =>
      if pyTruthy q0 then
        let query_list := get_query_list_from_file "destination_query_insert" queries
        match pyIndex query_list 1 with
        | .error _ => st0
        | .ok items =>
            match pyIter items with
            | .error _ => st0
            | .ok tables => (insert_loop env data tables st0).1
      else st0

/-! ## `extract/get_source_data.py::get_source_data` and its caller -/

/-- The loop of `get_source_data`: reads each SELECT file (a `None` read
result — i.e. a missing file — raises `FileNotFoundError`; note the tuple
`(False, "")` returned for an empty file is truthy and is passed on),
executes it on the source engine, and appends `(table_id, response)`. -/
def extract_loop (env : Env) : List PyVal → List PyVal →
    List PyVal × Option PyErr
  | [], acc => (acc, Option.none)
  | table :: rest, acc =>
      match pyIndex table 1 with
      | .error e => (acc, some e)
      | .ok t1 =>
          let query := read_query_from_file env (srcPath env (pyStr t1))
          if pyTruthy query then
            match pyIndex table 0 with
            | .error e => (acc, some e)
            | .ok t0 =>
                extract_loop env rest (acc ++ [.tuple [t0, env.sqlExec query]])
          else (acc, some .fileNotFoundError)

/-- `get_source_data(file)`: accumulates `(table_id, rows)` pairs.  The
final `success = validate_list("Source Data", data)` is computed and then
*discarded* — the function returns only the bare `data` list. -/
def get_source_data (env : Env) (file : String) : PyVal :=
  let data :=
    let queries := read_json_file env file
    match pyIndex queries 0 with
    | .error _ => ([] : List PyVal)
    | .ok q0 =>
        if pyTruthy q0 then
          match pyIndex queries 1 with
          | .error _ => []
          | .ok qdata =>
              let query_list := get_query_list_from_file "source_query_select" qdata
              match pyIndex query_list 1 with
              | .error _ => []
              | .ok items =>
                  match pyIter items with
                  | .error _ => []
                  | .ok tables => (extract_loop env tables []).1
        else []
  PyVal.list data

/-- Outcome of an orchestrator helper in `main.py`: an uncaught exception,
a `sys.exit(...)` with its diagnostic, or a normal return. -/
inductive OrchStatus where
  | crashed (e : PyErr)
  | exited (msg : String)
  | returned (v : PyVal)
deriving Repr

/-- `main.py::extract_source_data(source_file)`: performs
`success, source_data = srcdata.get_source_data(source_file)` — a
two-target unpack of whatever `get_source_data` returned — then exits on a
falsy `success`. -/
def extract_source_data (env : Env) (sourceFile : String) : OrchStatus :=
  match pyUnpack2 (get_source_data env sourceFile) with
  | .error e => .crashed e
  | .ok (succ, sourceData) =>
      if pyTruthy succ then .returned sourceData
      else .exited "EXITING: No source data returned."

/-! ## `utils/query_mapping_handler.py` (Mapping Compiler)

A well-formed mapping CSV row has the columns both roles need; pandas
filtering (`df[df['is_app_table'] == 1]`) keeps rows whose flag equals 1,
the flag column is dropped, and `sort_values(by=['execution_order',
'table_id'])` sorts ascending by that key pair.  The sort is modelled with
`List.insertionSort` on the lexicographic order; for distinct
`(execution_order, table_id)` keys — `table_id` is unique within a mapping
— any comparison sort yields this same order. -/
structure MappingRow where
  source_query_select : String
  destination_query_create : String
  destination_query_insert : String
  table_id : Int
  execution_order : Int
  is_app_table : Int
deriving Repr, DecidableEq

/-- A compiled source-mapping record (after the flag column is dropped). -/
structure SrcRec where
  source_query_select : String
  table_id : Int
  execution_order : Int
deriving Repr, DecidableEq

/-- A compiled destination-mapping record. -/
structure DestRec where
  destination_query_create : String
  destination_query_insert : String
  table_id : Int
  execution_order : Int
deriving Repr, DecidableEq

/-- Column projection for the source role. -/
def toSrcRec (r : MappingRow) : SrcRec :=
  ⟨r.source_query_select, r.table_id, r.execution_order⟩

/-- Column projection for the destination role. -/
def toDestRec (r : MappingRow) : DestRec :=
  ⟨r.destination_query_create, r.destination_query_insert, r.table_id,
    r.execution_order⟩

/-- The `(execution_order, table_id)` sort order on source records. -/
def srcLE (a b : SrcRec) : Prop :=
  a.execution_order < b.execution_order ∨
    (a.execution_order = b.execution_order ∧ a.table_id ≤ b.table_id)

/-- The `(execution_order, table_id)` sort order on destination records. -/
def destLE (a b : DestRec) : Prop :=
  a.execution_order < b.execution_order ∨
    (a.execution_order = b.execution_order ∧ a.table_id ≤ b.table_id)

instance : DecidableRel srcLE := fun a b => by
  unfold srcLE; exact inferInstance

instance : DecidableRel destLE := fun a b => by
  unfold destLE; exact inferInstance

instance : IsTotal SrcRec srcLE :=
  ⟨fun a b => by unfold srcLE; omega⟩

instance : IsTrans SrcRec srcLE :=
  ⟨fun a b c hab hbc => by unfold srcLE at *; omega⟩

instance : IsTotal DestRec destLE :=
  ⟨fun a b => by unfold destLE; omega⟩

instance : IsTrans DestRec destLE :=
  ⟨fun a b c hab hbc => by unfold destLE at *; omega⟩

/-- `get_source_mapping_data`: filter `is_app_table == 1`, drop the flag
column, sort by `(execution_order, table_id)` ascending. -/
def get_source_mapping_data (rows : List MappingRow) : List SrcRec :=
  List.insertionSort srcLE
    ((rows.filter (fun r => r.is_app_table == 1)).map toSrcRec)

/-- `get_destination_mapping_data`: same pipeline for the destination
columns. -/
def get_destination_mapping_data (rows : List MappingRow) : List DestRec :=
  List.insertionSort destLE
    ((rows.filter (fun r => r.is_app_table == 1)).map toDestRec)

/-! ## `main.py` (Orchestrator) -/

/-- One orchestration step of `main(args)`. -/
inductive EtlStep where
  | dropDatabase (db : String)
  | dropRole (db : String)
  | buildMapping (role : String)
  | createDatabase (db : String)
  | createRole (db : String)
  | grantDatabasePermissions (db : String)
  | createSchemas (db : String)
  | grantTablePermissions (db : String)
  | createTables (db : String)
  | extractData
  | loadTables (db : String)
deriving Repr, DecidableEq

/-- The step sequence of `main(args)` on the happy path (each helper exits
the process on failure, so a completed run is exactly this list).  The
`--seed-test-database` option is declared with `type=str`, so
`args.seed_test_database` is the raw string and `if
args.seed_test_database:` tests its truthiness — the final test-database
load runs iff the string is non-empty. -/
def main_steps (database seedTestDatabase : String) : List EtlStep :=
  let testDatabase := database ++ "_test"
  [.dropDatabase database, .dropDatabase testDatabase,
   .dropRole database,
   .buildMapping "source", .buildMapping "destination",
   .createDatabase database, .createRole database,
   .grantDatabasePermissions database, .createSchemas database,
   .grantTablePermissions database,
   .createDatabase testDatabase, .grantDatabasePermissions testDatabase,
   .createSchemas testDatabase, .grantTablePermissions testDatabase,
   .createTables database, .createTables testDatabase,
   .extractData,
   .loadTables database] ++
  (if pyTruthy (.str seedTestDatabase) then [.loadTables testDatabase] else [])

/-! ## Concrete environments for counterexamples and witnesses -/

/-- A destination-mapping record for table 1. -/
def rec1Load : PyVal :=
  .dict [("table_id", .int 1), ("destination_query_insert", .str "t1_INSERT.sql")]

/-- Environment with a one-record destination mapping whose insert file
exists and whose engine accepts every statement. -/
def envLoad : Env :=
  { sqlPath := "S", dbRolePassword := "pw",
    jsonFS := fun p => if p = "dest.json" then some (.list [rec1Load]) else Option.none,
    sqlFS := fun p =>
      if p = "S\\destination\\t1_INSERT.sql" then some "INSERT INTO t1 VALUES (%s);"
      else Option.none,
    pgEngine := fun _ => true, pgExecQ := fun _ _ => true,
    sqlExec := fun _ => .list [] }

/-- Extraction result for table 1: one row. -/
def dataLoad : PyVal := .list [.tuple [.int 1, .list [.tuple [.int 42]]]]

/-- First CREATE record of the two-record mapping. -/
def recC1 : PyVal :=
  .dict [("table_id", .int 1), ("destination_query_create", .str "t1_CREATE.sql")]

/-- Second CREATE record of the two-record mapping. -/
def recC2 : PyVal :=
  .dict [("table_id", .int 2), ("destination_query_create", .str "t2_CREATE.sql")]

/-- Environment with a two-record destination mapping whose engine rejects
the first CREATE statement and accepts the second. -/
def envBuild : Env :=
  { sqlPath := "S", dbRolePassword := "pw",
    jsonFS := fun p => if p = "dest.json" then some (.list [recC1, recC2]) else Option.none,
    sqlFS := fun p =>
      if p = "S\\destination\\t1_CREATE.sql" then some "CREATE TABLE t1 (a int);"
      else if p = "S\\destination\\t2_CREATE.sql" then some "CREATE TABLE t2 (a int);"
      else Option.none,
    pgEngine := fun q => q ≠ "CREATE TABLE t1 (a int);",
    pgExecQ := fun _ _ => true, sqlExec := fun _ => .list [] }

/-- Destination-mapping records with table_ids 1..4 (insert files). -/
def recsLoad4 : List PyVal :=
  [1, 2, 3, 4].map (fun i =>
    .dict [("table_id", .int i),
           ("destination_query_insert", .str ("t" ++ toString i ++ "_INSERT.sql"))])

/-- Environment for the load-filtering scenario: mapping table_ids
{1,2,3,4}, all four insert files present, engine accepting everything. -/
def envLoad4 : Env :=
  { sqlPath := "S", dbRolePassword := "pw",
    jsonFS := fun p => if p = "dest.json" then some (.list recsLoad4) else Option.none,
    sqlFS := fun p =>
      if p = "S\\destination\\t1_INSERT.sql" ∨ p = "S\\destination\\t2_INSERT.sql" ∨
         p = "S\\destination\\t3_INSERT.sql" ∨ p = "S\\destination\\t4_INSERT.sql"
      then some "INSERT INTO t VALUES (%s);" else Option.none,
    pgEngine := fun _ => true, pgExecQ := fun _ _ => true,
    sqlExec := fun _ => .list [] }

/-- Extraction result with table_ids {1,2,3}. -/
def dataExtract3 : PyVal :=
  .list [.tuple [.int 1, .list [.tuple [.int 10]]],
         .tuple [.int 2, .list [.tuple [.int 20]]],
         .tuple [.int 3, .list [.tuple [.int 30]]]]

/-- Environment for the extraction scenario: a one-record source mapping
whose SELECT file is missing, so zero tables yield entries. -/
def envExtract : Env :=
  { sqlPath := "S", dbRolePassword := "pw",
    jsonFS := fun p =>
      if p = "src.json" then
        some (.list [.dict [("table_id", .int 1),
                            ("source_query_select", .str "t1_SELECT.sql")]])
      else Option.none,
    sqlFS := fun _ => Option.none,
    pgEngine := fun _ => true, pgExecQ := fun _ _ => true,
    sqlExec := fun _ => .list [] }

/-- The role-creation template of the spec's substitution scenario. -/
def roleTemplate : String := "CREATE ROLE $role WITH PASSWORD '$password';"

/-- Environment whose template store holds the role-creation template, a
whitespace-only file, and a multi-line CREATE file. -/
def envTemplates : Env :=
  { sqlPath := "S", dbRolePassword := "secret",
    jsonFS := fun _ => Option.none,
    sqlFS := fun p =>
      if p = "S\\destination\\db_role__CREATE.sql" then some roleTemplate
      else if p = "S\\destination\\blank.sql" then some "\n\t"
      else if p = "S\\destination\\t1_CREATE.sql" then some "CREATE TABLE\nt1 (a int);"
      else Option.none,
    pgEngine := fun _ => true, pgExecQ := fun _ _ => true,
    sqlExec := fun _ => .list [] }

/-- The spec's mapping-compiler scenario rows: `(table_id 1, order 10,
app)`, `(table_id 2, order 5, app)`, `(table_id 3, order 5, not app)`. -/
def rowsScenario : List MappingRow :=
  [⟨"t1_SELECT.sql", "t1_CREATE.sql", "t1_INSERT.sql", 1, 10, 1⟩,
   ⟨"t2_SELECT.sql", "t2_CREATE.sql", "t2_INSERT.sql", 2, 5, 1⟩,
   ⟨"t3_SELECT.sql", "t3_CREATE.sql", "t3_INSERT.sql", 3, 5, 0⟩]

/-! ## Theorems -/

/-- Helper: `get_query_list_from_file` applied to a `(flag, records)`
tuple always fails — iterating the tuple yields the boolean flag first,
and subscripting a boolean raises `TypeError`. -/
theorem gqlf_on_pair_none (name : String) (flag : Bool) (recs : PyVal) :
    get_query_list_from_file name (.tuple [.bool flag, recs]) = PyVal.none := rfl

/-- Helper: `load_json_file` returns either `None` or a `(True, data)`
tuple. -/
theorem load_json_file_shape (env : Env) (file : String) :
    load_json_file env file = PyVal.none ∨
    ∃ d, load_json_file env file = PyVal.tuple [.bool true, d] := by
  unfold load_json_file
  cases env.jsonFS file with
  | none => exact Or.inl rfl
  | some d =>
      by_cases hd : pyTruthy d = true
      · exact Or.inr ⟨d, by simp [hd]⟩
      · exact Or.inl (by simp [hd])

/-- Helper: `insert_pg_tables` returns `False` with an empty execution
trace on every input. -/
theorem insert_pg_tables_const_false (env : Env) (database file : String) (data : PyVal) :
    insert_pg_tables env database file data = ⟨false, []⟩ := by
  unfold insert_pg_tables
  rcases load_json_file_shape env file with h | ⟨d, h⟩ <;> simp only [h] <;> rfl

/-- C8: for every destination mapping file that `load_json_file` parses
successfully (indeed, for every input at all), `insert_pg_tables` returns
`False`: it passes the whole `(success_flag, records)` tuple — not the
record list — to `get_query_list_from_file`, whose iteration fails on the
boolean flag, so no insert query is ever extracted or executed and the
loader can never report success. -/
theorem insert_pg_tables_never_succeeds :
    (∀ (name : String) (flag : Bool) (recs : PyVal),
        get_query_list_from_file name (.tuple [.bool flag, recs]) = PyVal.none) ∧
    (∀ (env : Env) (database file : String) (data : PyVal),
        (insert_pg_tables env database file data).success = false ∧
        (insert_pg_tables env database file data).executed = []) :=
  ⟨gqlf_on_pair_none,
   fun env database file data => by
     rw [insert_pg_tables_const_false env database file data]; exact ⟨rfl, rfl⟩⟩

/-- C1 (failing input): with a one-record destination mapping, matching
extraction data, and an engine that would accept every insert, the
returned success indicator is still `false` and no insert is executed —
the indicator never reflects per-table insert outcomes because it is
constantly `False`. -/
theorem insert_pg_tables_success_unreachable :
    (∀ (q v : PyVal), envLoad.pgExecQ q v = true) ∧
    insert_pg_tables envLoad "etl_db" "dest.json" dataLoad = ⟨false, []⟩ :=
  ⟨fun _ _ => rfl, rfl⟩

/-- C3 (counterexample): with an extraction result containing table_ids
{1,2,3} and a destination mapping containing table_ids {1,2,3,4} (all
insert files present, engine accepting everything), the load reports
failure, not success, and executes nothing. -/
theorem load_filtering_scenario_fails :
    (insert_pg_tables envLoad4 "etl_db" "dest.json" dataExtract3).success = false ∧
    (insert_pg_tables envLoad4 "etl_db" "dest.json" dataExtract3).executed = [] :=
  ⟨rfl, rfl⟩

/-- C3 (amended): in the same scenario the load reports failure with
nothing executed; moreover, even taken on its own, the per-table loop body
does not treat an unmatched `table_id` as zero rows — on the table-4
record it raises `IndexError` at `values[0][1]` because the filtered
value list is empty, executing no insert. -/
theorem load_unmatched_table_raises :
    insert_pg_tables envLoad4 "etl_db" "dest.json" dataExtract3 = ⟨false, []⟩ ∧
    insert_loop envLoad4 dataExtract3 [.tuple [.int 4, .str "t4_INSERT.sql"]] ⟨false, []⟩
      = (⟨false, []⟩, some PyErr.indexError) :=
  ⟨rfl, rfl⟩

/-- C4 (failing input): with a one-record source mapping whose SELECT
file is missing, zero tables yield entries; `get_source_data` returns the
bare empty data list — the non-emptiness flag it computed is discarded,
not returned — and the orchestrator's two-target unpack
`success, source_data = get_source_data(...)` then raises `ValueError`
instead of inspecting a success indicator and halting cleanly. -/
theorem get_source_data_discards_success :
    get_source_data envExtract "src.json" = PyVal.list [] ∧
    extract_source_data envExtract "src.json" = OrchStatus.crashed PyErr.valueError :=
  ⟨rfl, rfl⟩

/-- C9: `create_pg_tables` guards its loop with the truthiness of
`queries[1]`, the *second* mapping record; for every valid destination
mapping containing exactly one record the index access raises
`IndexError`, the exception is caught and swallowed, and the function
returns `None` (falsy) with no CREATE statement ever handed to the
engine. -/
theorem create_pg_tables_single_record (env : Env) (database file : String) (rec : PyVal)
    (hfs : env.jsonFS file = some (.list [rec])) :
    create_pg_tables env database file = (PyVal.none, []) := by
  unfold create_pg_tables read_json_file load_json_file
  simp only [hfs]
  rfl

/-- Witness for C9 at the concrete one-record environment. -/
theorem create_pg_tables_single_record_witness :
    create_pg_tables envLoad "etl_db" "dest.json" = (PyVal.none, []) :=
  create_pg_tables_single_record envLoad "etl_db" "dest.json" rec1Load rfl

/-- C2 (counterexample): with a two-record destination mapping whose
engine rejects the first CREATE statement, `create_pg_tables` still hands
*both* statements to the engine — the executed count equals the full
mapping length (2), not 1 — and even returns `True`, the outcome of only
the last statement. -/
theorem create_pg_tables_continues_after_failure :
    envBuild.pgEngine "CREATE TABLE t1 (a int);" = false ∧
    (create_pg_tables envBuild "etl_db" "dest.json").2 =
      ["CREATE TABLE t1 (a int);", "CREATE TABLE t2 (a int);"] ∧
    (create_pg_tables envBuild "etl_db" "dest.json").2.length = 2 ∧
    (create_pg_tables envBuild "etl_db" "dest.json").1 = PyVal.bool true :=
  ⟨rfl, rfl, rfl, rfl⟩

/-- Helper: when every record's CREATE file is readable, the
`create_pg_tables` loop raises no exception and hands every record's
statement to the engine, regardless of the engine's verdicts. -/
theorem create_loop_reads_all (env : Env) :
    ∀ (tables : List PyVal) (s : PyVal) (trace : List String),
      (∀ t ∈ tables, createReadable env t = true) →
      ∃ res, create_loop env tables s trace =
        ((res, trace ++ tables.map (createQueryText env)), Option.none) := by
  intro tables
  induction tables with
  | nil => intro s trace _; exact ⟨s, by simp [create_loop]⟩
  | cons t rest ih =>
      intro s trace hall
      have ht : createReadable env t = true := hall t (List.mem_cons_self t rest)
      have hrest : ∀ u ∈ rest, createReadable env u = true :=
        fun u hu => hall u (List.mem_cons_of_mem _ hu)
      unfold createReadable at ht
      cases hk : pyGetKey t "destination_query_create" with
      | error e => simp only [hk] at ht; exact Bool.noConfusion ht
      | ok item =>
          simp only [hk] at ht
          cases hf : env.sqlFS (destPath env (pyStr item)) with
          | none => simp only [hf] at ht; exact Bool.noConfusion ht
          | some c =>
              simp only [hf] at ht
              obtain ⟨res, hres⟩ :=
                ih (pg_query env (stripNlTab c)) (trace ++ [stripNlTab c]) hrest
              refine ⟨res, ?_⟩
              have hq : createQueryText env t = stripNlTab c := by
                simp only [createQueryText, hk, hf]
              have hread : read_query_from_file env (destPath env (pyStr item)) =
                  PyVal.tuple [.bool (stripNlTab c ≠ ""), .str (stripNlTab c)] := by
                simp only [read_query_from_file, hf]
              unfold create_loop
              simp only [hk]
              rw [hread]
              simp only [pyUnpack2, pyIter, pyTruthy, pyStr]
              rw [if_pos ht, hres]
              simp [hq]

/-- Helper: computation rules for the Python primitives on
constructor-shaped values. -/
theorem pyUnpack2_pair (a b : PyVal) : pyUnpack2 (.tuple [a, b]) = .ok (a, b) := rfl

/-- Helper: `v[1]` on a list with at least two elements. -/
theorem pyIndex_list_one (x y : PyVal) (zs : List PyVal) :
    pyIndex (.list (x :: y :: zs)) 1 = .ok y := by
  simp [pyIndex]

/-- Helper: iterating a list value. -/
theorem pyIter_list (xs : List PyVal) : pyIter (.list xs) = .ok xs := rfl

/-- Helper: `read_json_file` on a file parsing to a non-empty record
list. -/
theorem read_json_file_cons (env : Env) (file : String) (r : PyVal) (rs : List PyVal)
    (hfs : env.jsonFS file = some (.list (r :: rs))) :
    read_json_file env file = .tuple [.bool true, .list (r :: rs)] := by
  unfold read_json_file load_json_file
  rw [hfs]
  rfl

/-- C2 (amended): `create_pg_tables` fails fast only when *reading* a
record's SQL file fails; when the CREATE statement's *execution* fails at
some record, it merely logs and continues, so for a mapping whose files
are all readable the number of statements handed to the engine equals the
full mapping length — regardless of which statements the engine
rejects. -/
theorem create_pg_tables_attempts_every_record (env : Env) (database file : String)
    (r0 r1 : PyVal) (rest : List PyVal)
    (hfs : env.jsonFS file = some (.list (r0 :: r1 :: rest)))
    (h1 : pyTruthy r1 = true)
    (hall : ∀ t ∈ r0 :: r1 :: rest, createReadable env t = true) :
    (create_pg_tables env database file).2 =
      (r0 :: r1 :: rest).map (createQueryText env) := by
  obtain ⟨res, hres⟩ :=
    create_loop_reads_all env (r0 :: r1 :: rest) (PyVal.bool true) [] hall
  unfold create_pg_tables
  simp only [read_json_file_cons env file r0 (r1 :: rest) hfs, pyUnpack2_pair,
    pyIndex_list_one, pyIter_list, h1, eq_self_iff_true, if_true]
  rw [hres]
  simp

/-- Witness for C2's amended theorem: in the concrete two-record
environment with a failing first statement, both statements are handed to
the engine. -/
theorem create_pg_tables_attempts_every_record_witness :
    (create_pg_tables envBuild "etl_db" "dest.json").2 =
      [recC1, recC2].map (createQueryText envBuild) :=
  create_pg_tables_attempts_every_record envBuild "etl_db" "dest.json" recC1 recC2 []
    rfl rfl (by decide)

/-- C5: a compiled mapping (either role) contains exactly the rows whose
`is_app_table` flag is 1, sorted ascending by `(execution_order,
table_id)` — table_id breaking ties on equal execution_order — and every
record in the output stems from a flagged row (no `is_app_table = 0` row
ever appears). -/
theorem mapping_compiler_filter_sort (rows : List MappingRow) :
    ((get_source_mapping_data rows).Perm
        ((rows.filter (fun r => r.is_app_table == 1)).map toSrcRec) ∧
      List.Sorted srcLE (get_source_mapping_data rows) ∧
      (∀ d ∈ get_source_mapping_data rows,
        ∃ r, r ∈ rows ∧ r.is_app_table = 1 ∧ toSrcRec r = d)) ∧
    ((get_destination_mapping_data rows).Perm
        ((rows.filter (fun r => r.is_app_table == 1)).map toDestRec) ∧
      List.Sorted destLE (get_destination_mapping_data rows) ∧
      (∀ d ∈ get_destination_mapping_data rows,
        ∃ r, r ∈ rows ∧ r.is_app_table = 1 ∧ toDestRec r = d)) := by
  refine ⟨⟨List.perm_insertionSort _ _, List.sorted_insertionSort _ _, ?_⟩,
          ⟨List.perm_insertionSort _ _, List.sorted_insertionSort _ _, ?_⟩⟩
  · intro d hd
    rw [get_source_mapping_data, List.mem_insertionSort] at hd
    obtain ⟨r, hr, hrd⟩ := List.mem_map.mp hd
    obtain ⟨hrows, happ⟩ := List.mem_filter.mp hr
    exact ⟨r, hrows, by simpa using happ, hrd⟩
  · intro d hd
    rw [get_destination_mapping_data, List.mem_insertionSort] at hd
    obtain ⟨r, hr, hrd⟩ := List.mem_map.mp hd
    obtain ⟨hrows, happ⟩ := List.mem_filter.mp hr
    exact ⟨r, hrows, by simpa using happ, hrd⟩

/-- Witness for C5 at the spec's scenario rows: the record of the flagged
row with table_id 2 appears in the compiled destination mapping. -/
theorem mapping_compiler_filter_sort_witness :
    ∃ r, r ∈ rowsScenario ∧ r.is_app_table = 1 ∧
      toDestRec r = ⟨"t2_CREATE.sql", "t2_INSERT.sql", 2, 5⟩ :=
  (mapping_compiler_filter_sort rowsScenario).2.2.2
    ⟨"t2_CREATE.sql", "t2_INSERT.sql", 2, 5⟩ (by decide)

/-- Helper: appending the `_test` suffix never yields the same string. -/
theorem append_test_ne (db : String) : db ++ "_test" ≠ db := by
  intro h
  have hl := congrArg String.length h
  rw [String.length_append] at hl
  have h5 : ("_test" : String).length = 5 := rfl
  omega

/-- C10: the `--seed-test-database` option is a string whose truthiness
alone is tested — the test-database load step runs for every non-empty
value (including "False" and "0") and is skipped exactly when the
supplied value is the empty string. -/
theorem seed_flag_string_truthiness :
    (∀ database seed : String,
      EtlStep.loadTables (database ++ "_test") ∈ main_steps database seed ↔
        seed ≠ "") ∧
    EtlStep.loadTables "sales_test" ∈ main_steps "sales" "False" ∧
    EtlStep.loadTables "sales_test" ∈ main_steps "sales" "0" ∧
    EtlStep.loadTables "sales_test" ∉ main_steps "sales" "" := by
  refine ⟨?_, by decide, by decide, by decide⟩
  intro database seed
  by_cases hs : seed = ""
  · subst hs
    simp [main_steps, pyTruthy, append_test_ne database]
  · simp [main_steps, pyTruthy, hs, append_test_ne database]

/-- Helper: strictness of `Template.substitute` — when substitution
succeeds, every placeholder name the text contains had a binding (an
unbound placeholder can never be silently left in the output: it makes
the substitution fail instead). -/
theorem tmplSub_ok_names_bound (bs : List (String × String))
    (fuel : Nat) (text : List Char) :
    ∀ out, tmplSub bs fuel text = TmplResult.ok out →
      ∀ n ∈ tmplNames fuel text, (lookupBinding bs n).isSome = true := by
  induction fuel, text using tmplSub.induct bs <;>
    intro out h n hn <;>
    simp_all [tmplSub, tmplNames] <;>
    rcases hn with rfl | hn' <;>
    simp_all

/-- C6 (counterexample): on the spec's scenario template
`"CREATE ROLE $role WITH PASSWORD '$password';"` the code's substitution
pipeline fails with an unresolved `$role` — `pg_query_from_file` only ever
binds `$database` and `$password`, so the scenario cannot substitute to
residual-free text; the whole call returns `None` even though the file
exists and the engine accepts everything. -/
theorem substitution_role_scenario_fails :
    pgSubstitution envTemplates "etl_db" roleTemplate = TmplResult.unbound "role" ∧
    pg_query_from_file envTemplates "S\\destination\\db_role__CREATE.sql" "etl_db"
      = PyVal.none :=
  ⟨rfl, rfl⟩

/-- C6 (amended): placeholder substitution is strict — a successful
substitution implies every placeholder in the text had a binding, so an
unbound `$name` is never silently left in a query; but the only bindings
ever supplied are `$database` and `$password`, so the role-template
scenario fails with an unresolved `$role` for every database name and
configured password, while a template using only `$database` substitutes
cleanly. -/
theorem substitution_strict_and_limited :
    (∀ (bs : List (String × String)) (text : String) (out : List Char),
        templateSubstitute bs text = TmplResult.ok out →
        ∀ n ∈ templateNames text, (lookupBinding bs n).isSome = true) ∧
    (∀ (env : Env) (database : String),
        pgSubstitution env database roleTemplate = TmplResult.unbound "role") ∧
    templateSubstitute [("database", "etl_db")] "CREATE DATABASE $database;"
      = TmplResult.ok "CREATE DATABASE etl_db;".data :=
  ⟨fun bs text out h => tmplSub_ok_names_bound bs text.data.length text.data out h,
   fun _ _ => rfl, rfl⟩

/-- Witness for C6's amended theorem: the strictness conjunct applied to
the `$database`-only template, whose substitution succeeds, shows its one
placeholder is bound. -/
theorem substitution_strict_and_limited_witness :
    (lookupBinding [("database", "etl_db")] "database").isSome = true :=
  substitution_strict_and_limited.1 [("database", "etl_db")]
    "CREATE DATABASE $database;" "CREATE DATABASE etl_db;".data rfl
    "database" (by decide)

/-- C7 (counterexample): a whitespace-only query file is *not empty*, yet
`read_query_from_file` reports failure for it — after removing newlines
and tabs the text is empty, so the success flag is `False` — where the
claim requires success for any existing non-empty file. -/
theorem read_query_whitespace_file_fails :
    envTemplates.sqlFS "S\\destination\\blank.sql" = some "\n\t" ∧
    ("\n\t" : String) ≠ "" ∧
    read_query_from_file envTemplates "S\\destination\\blank.sql"
      = PyVal.tuple [PyVal.bool false, PyVal.str ""] :=
  ⟨rfl, by decide, rfl⟩

/-- C7 (amended): `read_query_from_file` returns `None` when the path
does not exist, reports failure when the content collapses to the empty
string once newline and tab characters are removed (in particular for
empty *and* whitespace-only files), and otherwise returns success with
the collapsed text — a single-line string containing no newline or tab. -/
theorem read_query_from_file_spec (env : Env) (path : String) :
    (env.sqlFS path = Option.none → read_query_from_file env path = PyVal.none) ∧
    (∀ c, env.sqlFS path = some c → stripNlTab c = "" →
        read_query_from_file env path
          = PyVal.tuple [PyVal.bool false, PyVal.str ""]) ∧
    (∀ c, env.sqlFS path = some c → stripNlTab c ≠ "" →
        read_query_from_file env path
          = PyVal.tuple [PyVal.bool true, PyVal.str (stripNlTab c)] ∧
        '\n' ∉ (stripNlTab c).data ∧ '\t' ∉ (stripNlTab c).data) := by
  refine ⟨fun h => ?_, fun c hc he => ?_, fun c hc hne => ⟨?_, ?_, ?_⟩⟩
  · unfold read_query_from_file; rw [h]
  · unfold read_query_from_file; rw [hc]; simp [he]
  · unfold read_query_from_file; rw [hc]; simp [hne]
  · intro hmem
    have h2 := List.mem_filter.mp hmem
    simp at h2
  · intro hmem
    have h2 := List.mem_filter.mp hmem
    simp at h2

/-- Witness for C7's amended theorem: a multi-line CREATE file reads
successfully as a single-line statement. -/
theorem read_query_from_file_spec_witness :
    read_query_from_file envTemplates "S\\destination\\t1_CREATE.sql"
      = PyVal.tuple [PyVal.bool true, PyVal.str "CREATE TABLEt1 (a int);"] ∧
    '\n' ∉ ("CREATE TABLEt1 (a int);" : String).data ∧
    '\t' ∉ ("CREATE TABLEt1 (a int);" : String).data :=
  (read_query_from_file_spec envTemplates "S\\destination\\t1_CREATE.sql").2.2
    "CREATE TABLE\nt1 (a int);" rfl (by decide)

/-- Witness for C10: "False" is non-empty, and the theorem's equivalence
puts the test-database load into the run for it. -/
theorem seed_flag_string_truthiness_witness :
    EtlStep.loadTables ("sales" ++ "_test") ∈ main_steps "sales" "False" :=
  (seed_flag_string_truthiness.1 "sales" "False").mpr (by decide)
